import Mathlib

/-!
Verification development for the hardware telemetry subsystem of the
rusty-notepad repository.

The Rust sources are shallowly embedded as follows:
- machine integers (u8, u16, u32, u64, i16) are modelled as Nat or Int, with
  explicit wrap-around (mod 2 to the relevant power) where overflow matters;
- f32 values are modelled as exact rationals; the only bit-level float
  operation in the source, f32 from big-endian bytes, is modelled by an exact
  IEEE 754 binary32 interpretation of the 32-bit word (infinities and NaN,
  which carry no rational value, are mapped to 0; no claim depends on that
  branch);
- foreign platform calls (IOKit service matching, property fetches, the SMC
  two-phase struct call) are modelled by explicit environment records that
  record, for one refresh pass, what each call would return; the embedded
  functions are deterministic functions of that environment.

Sources embedded: src/system_monitor.rs (fourcc_to_u32, SMCKeyData,
parse_temperature_value, read_smc_key, read_cpu_temperature,
get_cpu_temperature, get_gpu_entry_usage, get_gpu_usage, collect_stats and
its non-macos fallback), src/gpu.rs (get_gpu_usage and its fallback),
src/app.rs (refresh_system_info), src/constants.rs (SYSTEM_INFO_REFRESH_MS).
-/

/-- Four payload bytes of a sensor key identifier, each a u8 value.
Mirrors the Rust parameter type of fourcc_to_u32, a reference to [u8; 4]. -/
structure FourCC where
  b0 : Nat
  b1 : Nat
  b2 : Nat
  b3 : Nat
deriving DecidableEq

/-- Embeds fourcc_to_u32 from src/system_monitor.rs lines 186-188:
((s[0] as u32) << 24) | ((s[1] as u32) << 16) | ((s[2] as u32) << 8) | (s[3] as u32).
For u8 inputs the result is below 2 to the 32, so the u32 arithmetic never
wraps and no masking is needed. -/
def fourcc_to_u32 (s : FourCC) : Nat :=
  (s.b0 <<< 24) ||| (s.b1 <<< 16) ||| (s.b2 <<< 8) ||| s.b3

/-- Two-complement value of a 16-bit pattern, the reading of a Nat as i16.
Used to state what big-endian signed 16-bit interpretation means. -/
def signed16 (p : Nat) : Int :=
  if p % 65536 < 32768 then Int.ofNat (p % 65536) else Int.ofNat (p % 65536) - 65536

/-- Embeds the sp78 branch arithmetic of parse_temperature_value
(src/system_monitor.rs line 288):
let raw = ((data.bytes[0] as i16) << 8) | (data.bytes[1] as i16).
The two u8 bytes are nonnegative as i16; the left shift keeps the low 16 bits
of the pattern (explicit mod 65536 here) and the bitwise or merges the low
byte; the resulting 16-bit pattern is then read as a signed i16 value. -/
def sp78_raw (b0 b1 : Nat) : Int :=
  signed16 ((b0 <<< 8) ||| b1)

/-- The sp78 decoded value: raw as f32 / 256.0 (exact, as a rational). -/
def parse_sp78 (b0 b1 : Nat) : ℚ :=
  (sp78_raw b0 b1 : ℚ) / 256

/-- Big-endian 32-bit word from four bytes, as built by f32::from_be_bytes. -/
def f32_word (b0 b1 b2 b3 : Nat) : Nat :=
  (b0 <<< 24) ||| (b1 <<< 16) ||| (b2 <<< 8) ||| b3

/-- Exact rational value of an IEEE 754 binary32 bit pattern. Normal and
subnormal values are exact; the exponent-255 patterns (infinities, NaN) have
no rational value and are mapped to 0 in this model. -/
def f32_of_bits (w : Nat) : ℚ :=
  let sign : Nat := w / 2 ^ 31 % 2
  let expo : Nat := w / 2 ^ 23 % 2 ^ 8
  let frac : Nat := w % 2 ^ 23
  let mag : ℚ :=
    if expo = 0 then (frac : ℚ) / 2 ^ 23 * ((1 : ℚ) / 2 ^ 126)
    else if expo = 255 then 0
    else ((2 ^ 23 + frac : ℚ) / 2 ^ 23) * (2 : ℚ) ^ ((expo : ℤ) - 127)
  if sign = 1 then -mag else mag

/-- Embeds the flt branch of parse_temperature_value:
f32::from_be_bytes([bytes[0], bytes[1], bytes[2], bytes[3]]). -/
def f32_from_be_bytes (b0 b1 b2 b3 : Nat) : ℚ :=
  f32_of_bits (f32_word b0 b1 b2 b3)

/-- Embeds SMCKeyInfoData from src/system_monitor.rs lines 158-164. -/
structure SMCKeyInfoData where
  data_size : Nat
  data_type : Nat
  data_attributes : Nat
deriving DecidableEq

/-- Embeds SMCKeyData from src/system_monitor.rs lines 145-156. The vers and
p_limit_data padding arrays are never read by any embedded function and are
modelled, like bytes, as byte arrays indexed by position. -/
structure SMCKeyData where
  key : Nat
  vers : Fin 6 → Nat
  p_limit_data : Fin 16 → Nat
  key_info : SMCKeyInfoData
  result : Nat
  status : Nat
  data8 : Nat
  data32 : Nat
  bytes : Fin 32 → Nat

/-- The wire-type tag fourcc_to_u32(b"sp78"); byte values of s, p, 7, 8. -/
def sp78_tag : Nat := fourcc_to_u32 ⟨115, 112, 55, 56⟩

/-- The wire-type tag fourcc_to_u32(b"flt "); byte values of f, l, t, space. -/
def flt_tag : Nat := fourcc_to_u32 ⟨102, 108, 116, 32⟩

/-- Embeds parse_temperature_value from src/system_monitor.rs lines 282-306.
Matches on key_info.data_type: the sp78 branch decodes a big-endian signed
7.8 fixed-point value from bytes 0 and 1; the flt branch decodes an IEEE
float from bytes 0 to 3; any other tag falls back to reading byte 0 as an
unsigned integer, accepted only inside the range 0 inclusive to 150
exclusive. -/
def parse_temperature_value (data : SMCKeyData) : Option ℚ :=
  let data_type := data.key_info.data_type
  if data_type = sp78_tag then
    some (parse_sp78 (data.bytes 0) (data.bytes 1))
  else if data_type = flt_tag then
    some (f32_from_be_bytes (data.bytes 0) (data.bytes 1) (data.bytes 2) (data.bytes 3))
  else
    let temp : ℚ := (data.bytes 0 : ℚ)
    if 0 ≤ temp ∧ temp < 150 then some temp else none

/-- Environment of one SMC session: what each platform call of
get_cpu_temperature and read_smc_key would return during this pass.
keyinfo_call takes the packed key of the READ_KEYINFO request and yields the
key_info of the output struct, or none when IOConnectCallStructMethod
returns nonzero; readbytes_call takes the packed key and the round-tripped
SMCKeyInfoData of the READ_BYTES request and yields the full output struct,
or none when the call returns nonzero. -/
structure SmcEnv where
  matching_ok : Bool
  service_ok : Bool
  open_ok : Bool
  keyinfo_call : Nat → Option SMCKeyInfoData
  readbytes_call : Nat → SMCKeyInfoData → Option SMCKeyData

/-- Embeds read_smc_key from src/system_monitor.rs lines 242-280: a
two-phase query. Phase one sends the packed key with SMC_CMD_READ_KEYINFO;
on failure the key yields nothing. Phase two sends the same key together
with the key_info received from phase one and SMC_CMD_READ_BYTES; on failure
the key yields nothing; otherwise the output buffer is decoded by
parse_temperature_value. -/
def read_smc_key (env : SmcEnv) (key : FourCC) : Option ℚ :=
  match env.keyinfo_call (fourcc_to_u32 key) with
  | none => none
  | some info =>
    match env.readbytes_call (fourcc_to_u32 key) info with
    | none => none
    | some output => parse_temperature_value output

/-- Embeds TEMP_KEYS from src/system_monitor.rs lines 218-222, in source
order: Tp09 Tp01 Tp05 Tp0D Tp0H Tp0L Tp0P Tp0X Tp0b (Apple Silicon), then
TC0P TC0C TC1C TC0D TCXC (Intel), as ASCII byte quadruples. -/
def TEMP_KEYS : List FourCC :=
  [⟨84, 112, 48, 57⟩, ⟨84, 112, 48, 49⟩, ⟨84, 112, 48, 53⟩, ⟨84, 112, 48, 68⟩,
   ⟨84, 112, 48, 72⟩, ⟨84, 112, 48, 76⟩, ⟨84, 112, 48, 80⟩, ⟨84, 112, 48, 88⟩,
   ⟨84, 112, 48, 98⟩, ⟨84, 67, 48, 80⟩, ⟨84, 67, 48, 67⟩, ⟨84, 67, 49, 67⟩,
   ⟨84, 67, 48, 68⟩, ⟨84, 67, 88, 67⟩]

/-- Embeds the plausibility test (20.0..110.0).contains(&t) of
src/system_monitor.rs line 229: lower bound inclusive, upper bound
exclusive. -/
def temp_in_band (t : ℚ) : Bool :=
  decide (20 ≤ t ∧ t < 110)

/-- Embeds read_cpu_temperature from src/system_monitor.rs lines 216-240:
probe every candidate key; push each reading that decodes and lies in the
plausible band onto the temps vector; return none when the vector is empty,
else the arithmetic mean. -/
def read_cpu_temperature (env : SmcEnv) : Option ℚ :=
  let temps : List ℚ :=
    TEMP_KEYS.foldl
      (fun acc key =>
        match read_smc_key env key with
        | some t => if temp_in_band t then acc ++ [t] else acc
        | none => acc)
      []
  if temps.isEmpty then none
  else some (temps.sum / (temps.length : ℚ))

/-- Embeds get_cpu_temperature from src/system_monitor.rs lines 190-214:
null matching dictionary, absent service, or failed IOServiceOpen each yield
none; otherwise the connection is handed to read_cpu_temperature. -/
def get_cpu_temperature (env : SmcEnv) : Option ℚ :=
  if env.matching_ok then
    if env.service_ok then
      if env.open_ok then read_cpu_temperature env
      else none
    else none
  else none

/-- Model of one CFNumber-or-other property value found in a performance
statistics dictionary. fnum: a CFNumber whose to_f32 succeeds; inum: to_f32
fails and to_i64 succeeds (the source then casts the i64 to f32); nonnum:
the value is present but the CFNumber downcast fails; badnum: a CFNumber on
which both conversions fail. -/
inductive CFNum where
  | fnum (q : ℚ)
  | inum (n : Int)
  | nonnum
  | badnum
deriving DecidableEq

/-- Conversion attempted by the source on a found value: to_f32 first, then
to_i64 cast to f32; none when the downcast or both conversions fail. -/
def decode_cfnum : CFNum → Option ℚ
  | .fnum q => some q
  | .inum n => some (n : ℚ)
  | .nonnum => none
  | .badnum => none

/-- Embeds UTILIZATION_KEYS from src/system_monitor.rs lines 120-125 and the
identical utilization_keys list of src/gpu.rs lines 69-74, in source
order. -/
def UTILIZATION_KEYS : List String :=
  ["Device Utilization %", "GPU Activity(%)", "GPU Core Utilization", "hardwareWaitTime"]

/-- Embeds the key probing loop of get_gpu_entry_usage
(src/system_monitor.rs lines 127-138) and of src/gpu.rs lines 76-91: walk
the candidate keys in order; a key that is absent, fails the downcast, or
converts by neither path is skipped; the first key that yields a number ends
the loop with that value. -/
def probe_keys (perf : List (String × CFNum)) : List String → Option ℚ
  | [] => none
  | k :: ks =>
    match perf.lookup k with
    | some v =>
      match decode_cfnum v with
      | some q => some q
      | none => probe_keys perf ks
    | none => probe_keys perf ks

/-- One enumerated accelerator service entry. props_ok records whether
IORegistryEntryCreateCFProperties returned KERN_SUCCESS with a non-null
dictionary; perf_stats is the result of looking up PerformanceStatistics in
that dictionary, itself an association list of property names to values. -/
structure GpuEntry where
  props_ok : Bool
  perf_stats : Option (List (String × CFNum))

/-- Embeds get_gpu_entry_usage from src/system_monitor.rs lines 102-141: a
failed or null property fetch contributes nothing; a missing
PerformanceStatistics sub-dictionary contributes nothing; otherwise the
candidate keys are probed in order. -/
def get_gpu_entry_usage (e : GpuEntry) : Option ℚ :=
  if e.props_ok then
    match e.perf_stats with
    | some perf => probe_keys perf UTILIZATION_KEYS
    | none => none
  else none

/-- Environment of one accelerator enumeration: whether IOServiceMatching
returned a non-null dictionary, whether IOServiceGetMatchingServices
returned KERN_SUCCESS, and the enumerated entries in iterator order. -/
structure GpuEnv where
  matching_ok : Bool
  services_ok : Bool
  entries : List GpuEntry

/-- The accumulation loop of get_gpu_usage (src/system_monitor.rs lines
75-90, src/gpu.rs lines 42-96): running total of usages and count of
entries that yielded a usage. -/
def gpu_fold (entries : List GpuEntry) : ℚ × Nat :=
  entries.foldl
    (fun acc e =>
      match get_gpu_entry_usage e with
      | some usage => (acc.1 + usage, acc.2 + 1)
      | none => acc)
    (0, 0)

/-- Embeds get_gpu_usage from src/system_monitor.rs lines 63-100 and
src/gpu.rs lines 29-106 (the two functions have identical structure): null
matching dictionary or failed service enumeration yield none; otherwise the
entries are folded and the mean is returned when at least one entry yielded
a usage, none otherwise. -/
def get_gpu_usage (env : GpuEnv) : Option ℚ :=
  if env.matching_ok then
    if env.services_ok then
      let st := gpu_fold env.entries
      if st.2 > 0 then some (st.1 / (st.2 : ℚ)) else none
    else none
  else none

/-- Embeds the non-macos get_gpu_usage of src/gpu.rs lines 112-115: a
constant unavailable producer. -/
def get_gpu_usage_fallback : Option ℚ := none

/-- Embeds SystemStats from src/system_monitor.rs lines 5-11. -/
structure SystemStats where
  cpu_usage : ℚ
  gpu_usage : Option ℚ
  ram_usage : ℚ
  cpu_temp : Option ℚ
deriving DecidableEq

/-- Environment of one collect_stats pass: the OS counters read after
refresh_cpu_all and refresh_memory, plus the platform state observed by the
GPU and SMC queries. total_memory and used_memory are the u64 sysinfo
counters, cast to f32 (here: to rationals) by the source. -/
structure SysEnv where
  cpu_usage : ℚ
  total_memory : Nat
  used_memory : Nat
  gpu : GpuEnv
  smc : SmcEnv

/-- Embeds the macos collect_stats from src/system_monitor.rs lines 310-327:
cpu from the OS, gpu from get_gpu_usage, ram as used / total * 100 guarded
by total > 0, temperature from get_cpu_temperature. -/
def collect_stats (env : SysEnv) : SystemStats :=
  let total_mem : ℚ := (env.total_memory : ℚ)
  let used_mem : ℚ := (env.used_memory : ℚ)
  { cpu_usage := env.cpu_usage
    gpu_usage := get_gpu_usage env.gpu
    ram_usage := if total_mem > 0 then used_mem / total_mem * 100 else 0
    cpu_temp := get_cpu_temperature env.smc }

/-- Embeds the non-macos collect_stats from src/system_monitor.rs lines
334-351: identical cpu and ram computation, gpu_usage and cpu_temp constant
none. -/
def collect_stats_fallback (env : SysEnv) : SystemStats :=
  let total_mem : ℚ := (env.total_memory : ℚ)
  let used_mem : ℚ := (env.used_memory : ℚ)
  { cpu_usage := env.cpu_usage
    gpu_usage := none
    ram_usage := if total_mem > 0 then used_mem / total_mem * 100 else 0
    cpu_temp := none }

/-- Embeds SYSTEM_INFO_REFRESH_MS from src/constants.rs line 40. -/
def SYSTEM_INFO_REFRESH_MS : Nat := 1000

/-- The system-telemetry fields of NotepadApp in src/app.rs lines 33-36:
cached cpu_usage, cached gpu_usage and the Instant of the last refresh,
modelled in milliseconds. -/
structure AppSysState where
  cpu_usage : ℚ
  gpu_usage : Option ℚ
  last_system_refresh : Nat
deriving DecidableEq

/-- Environment of one refresh_system_info call: the current Instant in
milliseconds, the cpu usage the OS would report after refresh_cpu_all, the
accelerator state gpu::get_gpu_usage would observe, and the SMC sensors and
memory counters present on the machine during the call (which
refresh_system_info never consults). -/
structure AppEnv where
  now : Nat
  os_cpu_usage : ℚ
  gpu : GpuEnv
  smc : SmcEnv
  total_memory : Nat
  used_memory : Nat

/-- Embeds refresh_system_info from src/app.rs lines 94-101: when more than
SYSTEM_INFO_REFRESH_MS milliseconds have elapsed since last_system_refresh,
re-read the OS cpu counter, re-run gpu::get_gpu_usage and reset the
timestamp; otherwise leave the state untouched. -/
def refresh_system_info (s : AppSysState) (env : AppEnv) : AppSysState :=
  if env.now - s.last_system_refresh > SYSTEM_INFO_REFRESH_MS then
    { cpu_usage := env.os_cpu_usage
      gpu_usage := get_gpu_usage env.gpu
      last_system_refresh := env.now }
  else s

/-- Written from the spec wording for the per-device probe (spec section
4.2): take the first candidate utilization key that is present and
decodable; compared against the probe_keys loop embedded from the source. -/
def first_present_decodable (perf : List (String × CFNum)) : Option ℚ :=
  (UTILIZATION_KEYS.filterMap (fun k => (perf.lookup k).bind decode_cfnum)).head?

/-- Written from the spec wording for the temperature aggregation (spec
section 4.3): the per-key readings that decode successfully and lie in the
plausible band, in key order. -/
def accepted_temps (env : SmcEnv) : List ℚ :=
  TEMP_KEYS.filterMap
    (fun key =>
      match read_smc_key env key with
      | some t => if temp_in_band t then some t else none
      | none => none)

/-! Concrete test fixtures: environments and buffers used as witnesses and
counterexamples. -/

/-- Key info announcing the sp78 wire type with its two payload bytes. -/
def info_sp78 : SMCKeyInfoData :=
  { data_size := 2, data_type := sp78_tag, data_attributes := 0 }

/-- A read buffer of wire type sp78 whose payload starts with two given
bytes; all remaining fields are zero. -/
def d_sp78 (b0 b1 : Nat) : SMCKeyData :=
  { key := 0
    vers := fun _ => 0
    p_limit_data := fun _ => 0
    key_info := info_sp78
    result := 0
    status := 0
    data8 := 0
    data32 := 0
    bytes := fun i => if i = 0 then b0 else if i = 1 then b1 else 0 }

/-- A read buffer with the same wire type and the same first four payload
bytes as d_sp78 25 128, but different key, vers, padding, declared size,
attributes, result, status, data8, data32 and tail payload bytes. -/
def d_sp78_noisy : SMCKeyData :=
  { key := 99
    vers := fun _ => 3
    p_limit_data := fun _ => 7
    key_info := { data_size := 9, data_type := sp78_tag, data_attributes := 5 }
    result := 132
    status := 1
    data8 := 5
    data32 := 77
    bytes := fun i => if i = 0 then 25 else if i = 1 then 128 else if i.val < 4 then 0 else 201 }

/-- An SMC session in which every key fails at the key-info phase. -/
def smcEnvNone : SmcEnv :=
  { matching_ok := true, service_ok := true, open_ok := true
    keyinfo_call := fun _ => none
    readbytes_call := fun _ _ => none }

/-- An SMC session in which every key reads as an sp78 payload with the two
given bytes. -/
def smcEnvSp78 (b0 b1 : Nat) : SmcEnv :=
  { matching_ok := true, service_ok := true, open_ok := true
    keyinfo_call := fun _ => some info_sp78
    readbytes_call := fun _ _ => some (d_sp78 b0 b1) }

/-- A platform with no accelerator service. -/
def gpuEnvNone : GpuEnv :=
  { matching_ok := false, services_ok := false, entries := [] }

/-- One accelerator device whose first candidate utilization key carries the
value 5000. -/
def gpuEnvDev5000 : GpuEnv :=
  { matching_ok := true, services_ok := true
    entries := [{ props_ok := true
                  perf_stats := some [("Device Utilization %", .fnum 5000)] }] }

/-! Helper lemmas. -/

/-- Bitwise or of a left-shifted value with a value fitting in the vacated
low bits is addition. -/
theorem mul_two_pow_lor_eq_add (n : Nat) :
    ∀ a b : Nat, b < 2 ^ n → (a * 2 ^ n) ||| b = a * 2 ^ n + b := by
  induction n with
  | zero =>
    intro a b hb
    have hb0 : b = 0 := Nat.lt_one_iff.mp hb
    subst hb0
    simp
  | succ n ih =>
    intro a b hb
    have hdec : Nat.bit (b.testBit 0) (b >>> 1) = b := Nat.bit_testBit_zero_shiftRight_one b
    have h1 : a * 2 ^ (n + 1) = Nat.bit false (a * 2 ^ n) := by
      simp [Nat.bit_val]
      ring
    have hb2 : b >>> 1 < 2 ^ n := by
      have hp : (2 : Nat) ^ (n + 1) = 2 ^ n * 2 := by rw [pow_succ]
      rw [Nat.shiftRight_one]
      omega
    rw [← hdec, h1, Nat.lor_bit, ih a (b >>> 1) hb2]
    rw [Nat.bit_val, Nat.bit_val]
    have hp : (2 : Nat) ^ (n + 1) = 2 ^ n * 2 := by rw [pow_succ]
    cases hB : b.testBit 0 <;> simp <;> omega

/-- Shift-then-or form of the previous lemma. -/
theorem shiftLeft_lor_eq_add (a b n : Nat) (hb : b < 2 ^ n) :
    (a <<< n) ||| b = a * 2 ^ n + b := by
  rw [Nat.shiftLeft_eq]
  exact mul_two_pow_lor_eq_add n a b hb

/-- On u8 inputs the packed key is the base-256 big-endian value of the four
bytes. -/
theorem fourcc_to_u32_eq (k : FourCC) (h0 : k.b0 < 256) (h1 : k.b1 < 256)
    (h2 : k.b2 < 256) (h3 : k.b3 < 256) :
    fourcc_to_u32 k = k.b0 * 2 ^ 24 + k.b1 * 2 ^ 16 + k.b2 * 2 ^ 8 + k.b3 := by
  obtain ⟨a, b, c, d⟩ := k
  simp only at h0 h1 h2 h3 ⊢
  unfold fourcc_to_u32
  simp only [Nat.shiftLeft_eq]
  have p1 : (2 : Nat) ^ 24 = 2 ^ 16 * 256 := by norm_num
  have p2 : (2 : Nat) ^ 16 = 2 ^ 8 * 256 := by norm_num
  have e1 : (a * 2 ^ 24) ||| (b * 2 ^ 16) = a * 2 ^ 24 + b * 2 ^ 16 :=
    mul_two_pow_lor_eq_add 24 a (b * 2 ^ 16) (by omega)
  have r2 : a * 2 ^ 24 + b * 2 ^ 16 = (a * 2 ^ 8 + b) * 2 ^ 16 := by
    rw [p1]; ring
  have e2 : ((a * 2 ^ 8 + b) * 2 ^ 16) ||| (c * 2 ^ 8) =
      (a * 2 ^ 8 + b) * 2 ^ 16 + c * 2 ^ 8 :=
    mul_two_pow_lor_eq_add 16 (a * 2 ^ 8 + b) (c * 2 ^ 8) (by omega)
  have r3 : (a * 2 ^ 8 + b) * 2 ^ 16 + c * 2 ^ 8 =
      (a * 2 ^ 16 + b * 2 ^ 8 + c) * 2 ^ 8 := by
    rw [p2]; ring
  have e3 : ((a * 2 ^ 16 + b * 2 ^ 8 + c) * 2 ^ 8) ||| d =
      (a * 2 ^ 16 + b * 2 ^ 8 + c) * 2 ^ 8 + d :=
    mul_two_pow_lor_eq_add 8 (a * 2 ^ 16 + b * 2 ^ 8 + c) d (by omega)
  rw [e1, r2, e2, r3, e3, p2]

/-- Injectivity of the packing on byte-valued inputs. -/
theorem fourcc_to_u32_inj (k1 k2 : FourCC)
    (h10 : k1.b0 < 256) (h11 : k1.b1 < 256) (h12 : k1.b2 < 256) (h13 : k1.b3 < 256)
    (h20 : k2.b0 < 256) (h21 : k2.b1 < 256) (h22 : k2.b2 < 256) (h23 : k2.b3 < 256)
    (heq : fourcc_to_u32 k1 = fourcc_to_u32 k2) : k1 = k2 := by
  rw [fourcc_to_u32_eq k1 h10 h11 h12 h13, fourcc_to_u32_eq k2 h20 h21 h22 h23] at heq
  obtain ⟨a, b, c, d⟩ := k1
  obtain ⟨a2, b2, c2, d2⟩ := k2
  simp only at *
  have : a = a2 ∧ b = b2 ∧ c = c2 ∧ d = d2 := by omega
  simp [this.1, this.2.1, this.2.2.1, this.2.2.2]

/-- Folding a push-on-some body over a list builds the filterMap. -/
theorem foldl_push_eq_filterMap {α β : Type} (f : α → Option β) (l : List α) :
    ∀ acc : List β,
      l.foldl (fun a x => a ++ (f x).toList) acc = acc ++ l.filterMap f := by
  induction l with
  | nil => intro acc; simp
  | cons x xs ih =>
    intro acc
    cases hfx : f x <;> simp [List.filterMap_cons, hfx, ih]

/-- The temps vector built by the read_cpu_temperature loop is exactly the
accepted-readings list, so the function returns none on an empty list and
the arithmetic mean otherwise. -/
theorem read_cpu_temperature_eq (env : SmcEnv) :
    read_cpu_temperature env =
      (if accepted_temps env = [] then none
       else some ((accepted_temps env).sum / ((accepted_temps env).length : ℚ))) := by
  have hbody : ∀ (acc : List ℚ) (key : FourCC),
      (match read_smc_key env key with
        | some t => if temp_in_band t then acc ++ [t] else acc
        | none => acc)
      = acc ++ (match read_smc_key env key with
                 | some t => if temp_in_band t then some t else none
                 | none => none).toList := by
    intro acc key
    cases h : read_smc_key env key with
    | none => simp
    | some t =>
      by_cases hb : temp_in_band t <;> simp [hb, Option.toList]
  have htemps :
      TEMP_KEYS.foldl
        (fun acc key =>
          match read_smc_key env key with
          | some t => if temp_in_band t then acc ++ [t] else acc
          | none => acc) []
      = accepted_temps env := by
    rw [List.foldl_ext _ _ [] (fun acc key _ => hbody acc key)]
    have h2 := foldl_push_eq_filterMap
      (fun key => match read_smc_key env key with
        | some t => if temp_in_band t then some t else none
        | none => none) TEMP_KEYS ([] : List ℚ)
    unfold accepted_temps
    simpa using h2
  show (if (TEMP_KEYS.foldl
        (fun acc key =>
          match read_smc_key env key with
          | some t => if temp_in_band t then acc ++ [t] else acc
          | none => acc) []).isEmpty
      then none
      else some ((TEMP_KEYS.foldl
        (fun acc key =>
          match read_smc_key env key with
          | some t => if temp_in_band t then acc ++ [t] else acc
          | none => acc) []).sum /
        (((TEMP_KEYS.foldl
        (fun acc key =>
          match read_smc_key env key with
          | some t => if temp_in_band t then acc ++ [t] else acc
          | none => acc) []).length : Nat) : ℚ))) = _
  rw [htemps]
  simp [List.isEmpty_iff]

/-- Every accepted temperature reading lies in the plausible band. -/
theorem accepted_temps_band (env : SmcEnv) (t : ℚ) (ht : t ∈ accepted_temps env) :
    20 ≤ t ∧ t < 110 := by
  simp only [accepted_temps, List.mem_filterMap] at ht
  obtain ⟨key, _, hkey⟩ := ht
  cases hr : read_smc_key env key with
  | none => rw [hr] at hkey; simp at hkey
  | some u =>
    rw [hr] at hkey
    by_cases hb : temp_in_band u
    · simp only [hb, if_true] at hkey
      obtain rfl : u = t := by simpa using hkey
      simpa [temp_in_band] using hb
    · simp [hb] at hkey

/-- Lower bound of a sum of list elements all at least c. -/
theorem list_mul_le_sum (c : ℚ) (l : List ℚ) (h : ∀ x ∈ l, c ≤ x) :
    c * l.length ≤ l.sum := by
  induction l with
  | nil => simp
  | cons x xs ih =>
    simp only [List.length_cons, List.sum_cons]
    have hx : c ≤ x := h x (List.mem_cons_self x xs)
    have hxs := ih (fun y hy => h y (List.mem_cons_of_mem x hy))
    push_cast
    nlinarith [hxs]

/-- Upper bound of a sum of list elements all at most c. -/
theorem list_sum_le_mul (c : ℚ) (l : List ℚ) (h : ∀ x ∈ l, x ≤ c) :
    l.sum ≤ c * l.length := by
  induction l with
  | nil => simp
  | cons x xs ih =>
    simp only [List.length_cons, List.sum_cons]
    have hx : x ≤ c := h x (List.mem_cons_self x xs)
    have hxs := ih (fun y hy => h y (List.mem_cons_of_mem x hy))
    push_cast
    nlinarith [hxs]

/-- Strict upper bound of a sum over a nonempty list of elements below c. -/
theorem list_sum_lt_mul (c : ℚ) (l : List ℚ) (h : ∀ x ∈ l, x < c) (hne : l ≠ []) :
    l.sum < c * l.length := by
  cases l with
  | nil => exact absurd rfl hne
  | cons x xs =>
    simp only [List.length_cons, List.sum_cons]
    have hx : x < c := h x (List.mem_cons_self x xs)
    have hxs : xs.sum ≤ c * xs.length :=
      list_sum_le_mul c xs (fun y hy => le_of_lt (h y (List.mem_cons_of_mem x hy)))
    push_cast
    nlinarith [hxs]

/-- The arithmetic mean of a nonempty list of values inside the band stays
inside the band: at least 20, strictly below 110. -/
theorem mean_mem_band (l : List ℚ) (hne : l ≠ [])
    (h : ∀ x ∈ l, 20 ≤ x ∧ x < 110) :
    20 ≤ l.sum / (l.length : ℚ) ∧ l.sum / (l.length : ℚ) < 110 := by
  have hlen : 0 < (l.length : ℚ) := by
    have : 0 < l.length := List.length_pos.mpr hne
    exact_mod_cast this
  constructor
  · rw [le_div_iff₀ hlen]
    have := list_mul_le_sum 20 l (fun x hx => (h x hx).1)
    linarith
  · rw [div_lt_iff₀ hlen]
    have := list_sum_lt_mul 110 l (fun x hx => (h x hx).2) hne
    linarith

/-- The GPU accumulation loop computes the sum and count of the per-entry
usages that were produced. -/
theorem gpu_fold_eq (entries : List GpuEntry) :
    gpu_fold entries =
      ((entries.filterMap get_gpu_entry_usage).sum,
       (entries.filterMap get_gpu_entry_usage).length) := by
  unfold gpu_fold
  suffices h : ∀ acc : ℚ × Nat,
      entries.foldl (fun acc e =>
        match get_gpu_entry_usage e with
        | some usage => (acc.1 + usage, acc.2 + 1)
        | none => acc) acc
      = (acc.1 + (entries.filterMap get_gpu_entry_usage).sum,
         acc.2 + (entries.filterMap get_gpu_entry_usage).length) by
    rw [h (0, 0)]
    simp
  induction entries with
  | nil => intro acc; simp
  | cons e es ih =>
    intro acc
    cases he : get_gpu_entry_usage e <;>
      simp [List.filterMap_cons, he, ih] <;> ring_nf <;> simp [add_comm, add_assoc, add_left_comm]

/-- The per-device key probing loop returns the first candidate key value
that is present and decodable, in candidate order. -/
theorem probe_keys_eq_first (perf : List (String × CFNum)) :
    ∀ ks : List String,
      probe_keys perf ks = (ks.filterMap (fun k => (perf.lookup k).bind decode_cfnum)).head? := by
  intro ks
  induction ks with
  | nil => simp [probe_keys]
  | cons k ks ih =>
    unfold probe_keys
    cases hl : perf.lookup k with
    | none => simp [List.filterMap_cons, hl, ih]
    | some v =>
      cases hv : decode_cfnum v <;> simp [List.filterMap_cons, hl, hv, ih]

/-- Evaluation of the sp78 fixture buffer: the decode reads its two payload
bytes. -/
theorem parse_d_sp78 (b0 b1 : Nat) :
    parse_temperature_value (d_sp78 b0 b1) = some (parse_sp78 b0 b1) := by
  simp [parse_temperature_value, d_sp78, info_sp78]

/-- Concrete sp78 decodes used by witnesses: 0x19 0x80 gives 25.5 and
0xFF 0x00 gives -1. -/
theorem parse_sp78_values : parse_sp78 25 128 = 51 / 2 ∧ parse_sp78 255 0 = -1 := by
  constructor
  · have h : ((25 <<< 8) ||| 128 : Nat) = 6528 := by decide
    simp [parse_sp78, sp78_raw, signed16, h]
    norm_num
  · have h : ((255 <<< 8) ||| 0 : Nat) = 65280 := by decide
    simp [parse_sp78, sp78_raw, signed16, h]

/-- C1: For the sp78 wire type the decoder interprets the first two payload
bytes as a big-endian signed 16-bit integer and divides by 256; in
particular bytes 0x19 0x80 decode to 25.5 (pattern 6528, not 6400 as the
spec example computes, so not 25.0) and bytes 0xFF 0x00 decode to -1. -/
theorem sp78_decodes_be_signed_over_256 (d : SMCKeyData)
    (htype : d.key_info.data_type = sp78_tag)
    (h0 : d.bytes 0 < 256) (h1 : d.bytes 1 < 256) :
    parse_temperature_value d = some ((signed16 (d.bytes 0 * 256 + d.bytes 1) : ℚ) / 256) := by
  unfold parse_temperature_value
  rw [htype]
  simp only [if_pos rfl]
  unfold parse_sp78 sp78_raw
  rw [shiftLeft_lor_eq_add (d.bytes 0) (d.bytes 1) 8 (by omega)]
  norm_num

/-- Witness for C1: the theorem applied to the two concrete payloads of the
spec example. -/
theorem sp78_decodes_be_signed_over_256_witness :
    parse_temperature_value (d_sp78 25 128) = some (51 / 2) ∧
    parse_temperature_value (d_sp78 255 0) = some (-1) := by
  constructor
  · have h := sp78_decodes_be_signed_over_256 (d_sp78 25 128) rfl (by decide) (by decide)
    rw [h]
    have hb0 : (d_sp78 25 128).bytes 0 = 25 := by decide
    have hb1 : (d_sp78 25 128).bytes 1 = 128 := by decide
    rw [hb0, hb1]
    norm_num [signed16]
  · have h := sp78_decodes_be_signed_over_256 (d_sp78 255 0) rfl (by decide) (by decide)
    rw [h]
    have hb0 : (d_sp78 255 0).bytes 0 = 255 := by decide
    have hb1 : (d_sp78 255 0).bytes 1 = 0 := by decide
    rw [hb0, hb1]
    norm_num [signed16]

/-- Counterexample for C1 as stated: the payload starting 0x19 0x80 decodes
to 25.5, not 25.0. -/
theorem sp78_example_not_25 :
    parse_temperature_value (d_sp78 25 128) = some (51 / 2) ∧ (51 / 2 : ℚ) ≠ 25 := by
  constructor
  · rw [parse_d_sp78]
    rw [parse_sp78_values.1]
  · norm_num

/-- C9: the key packing is deterministic, packs big-endian (byte 0 in the
most significant position, base-256 positional value), and is injective on
4-byte inputs. -/
theorem pack_key_deterministic_be_injective :
    (∀ k1 k2 : FourCC, k1 = k2 → fourcc_to_u32 k1 = fourcc_to_u32 k2) ∧
    (∀ k : FourCC, k.b0 < 256 → k.b1 < 256 → k.b2 < 256 → k.b3 < 256 →
      fourcc_to_u32 k = k.b0 * 2 ^ 24 + k.b1 * 2 ^ 16 + k.b2 * 2 ^ 8 + k.b3) ∧
    (∀ k1 k2 : FourCC,
      k1.b0 < 256 → k1.b1 < 256 → k1.b2 < 256 → k1.b3 < 256 →
      k2.b0 < 256 → k2.b1 < 256 → k2.b2 < 256 → k2.b3 < 256 →
      k1 ≠ k2 → fourcc_to_u32 k1 ≠ fourcc_to_u32 k2) := by
  refine ⟨fun k1 k2 h => by rw [h], fourcc_to_u32_eq, ?_⟩
  intro k1 k2 h10 h11 h12 h13 h20 h21 h22 h23 hne heq
  exact hne (fourcc_to_u32_inj k1 k2 h10 h11 h12 h13 h20 h21 h22 h23 heq)

/-- Witness for C9: packing and distinctness at concrete keys (Tp09 and
TC0P). -/
theorem pack_key_deterministic_be_injective_witness :
    fourcc_to_u32 ⟨84, 112, 48, 57⟩ = 84 * 2 ^ 24 + 112 * 2 ^ 16 + 48 * 2 ^ 8 + 57 ∧
    fourcc_to_u32 ⟨84, 112, 48, 57⟩ ≠ fourcc_to_u32 ⟨84, 67, 48, 80⟩ := by
  constructor
  · exact pack_key_deterministic_be_injective.2.1 ⟨84, 112, 48, 57⟩
      (by decide) (by decide) (by decide) (by decide)
  · exact pack_key_deterministic_be_injective.2.2 ⟨84, 112, 48, 57⟩ ⟨84, 67, 48, 80⟩
      (by decide) (by decide) (by decide) (by decide)
      (by decide) (by decide) (by decide) (by decide) (by decide)

/-- C10: the decoded value depends only on the wire-type tag and the first
four payload bytes — result, status and payload bytes 4 to 31 never
influence it — and once both platform calls succeed the result of
read_smc_key is exactly the decode of the returned buffer, so success is
judged by the call return codes alone. -/
theorem decode_ignores_result_status_tail :
    (∀ d1 d2 : SMCKeyData,
      d1.key_info.data_type = d2.key_info.data_type →
      d1.bytes 0 = d2.bytes 0 → d1.bytes 1 = d2.bytes 1 →
      d1.bytes 2 = d2.bytes 2 → d1.bytes 3 = d2.bytes 3 →
      parse_temperature_value d1 = parse_temperature_value d2) ∧
    (∀ (env : SmcEnv) (key : FourCC) (info : SMCKeyInfoData) (out : SMCKeyData),
      env.keyinfo_call (fourcc_to_u32 key) = some info →
      env.readbytes_call (fourcc_to_u32 key) info = some out →
      read_smc_key env key = parse_temperature_value out) := by
  constructor
  · intro d1 d2 htype h0 h1 h2 h3
    unfold parse_temperature_value
    rw [htype, h0, h1, h2, h3]
  · intro env key info out hinfo hread
    unfold read_smc_key
    simp only [hinfo, hread]

/-- Witness for C10: two buffers sharing the tag and first four payload
bytes but differing in key, vers, padding, declared size, attributes,
result, status, data8, data32 and tail bytes decode identically, and a
successful two-phase session returns the decode of its output buffer. -/
theorem decode_ignores_result_status_tail_witness :
    parse_temperature_value (d_sp78 25 128) = parse_temperature_value d_sp78_noisy ∧
    read_smc_key (smcEnvSp78 25 128) ⟨84, 112, 48, 57⟩ =
      parse_temperature_value (d_sp78 25 128) := by
  constructor
  · exact decode_ignores_result_status_tail.1 (d_sp78 25 128) d_sp78_noisy
      rfl (by decide) (by decide) (by decide) (by decide)
  · exact decode_ignores_result_status_tail.2 (smcEnvSp78 25 128) ⟨84, 112, 48, 57⟩
      info_sp78 (d_sp78 25 128) rfl rfl

/-- C4: the CPU-temperature query returns the arithmetic mean of exactly
the candidate-key readings that decode and lie in the band from 20
inclusive to 110 exclusive (so 15 is rejected, 109.9 accepted, 110
rejected), and none rather than 0 when no reading is accepted. -/
theorem cpu_temp_mean_of_accepted :
    (∀ env : SmcEnv,
      read_cpu_temperature env =
        (if accepted_temps env = [] then none
         else some ((accepted_temps env).sum / ((accepted_temps env).length : ℚ)))) ∧
    (∀ (env : SmcEnv) (t : ℚ), t ∈ accepted_temps env → temp_in_band t = true) ∧
    temp_in_band 15 = false ∧ temp_in_band 109.9 = true ∧ temp_in_band 110 = false := by
  refine ⟨read_cpu_temperature_eq, ?_, ?_, ?_, ?_⟩
  · intro env t ht
    have := accepted_temps_band env t ht
    simp [temp_in_band, this.1, this.2]
  · simp [temp_in_band]
    norm_num
  · simp [temp_in_band]
    norm_num
  · simp [temp_in_band]

/-- Evaluation of the all-sp78 session: every candidate key reads the same
sp78 payload, so the accepted list is fourteen copies of its decode. -/
theorem accepted_temps_smcEnvSp78_25_128 :
    accepted_temps (smcEnvSp78 25 128) = List.replicate 14 (51 / 2) := by
  have hp : parse_temperature_value (d_sp78 25 128) = some (51 / 2) := by
    rw [parse_d_sp78, parse_sp78_values.1]
  have hb : temp_in_band (51 / 2) = true := by
    simp [temp_in_band]
    norm_num
  simp [accepted_temps, TEMP_KEYS, read_smc_key, smcEnvSp78, hp, hb, List.replicate]

/-- Witness for C4: a session in which every key fails yields none, and the
reading 25.5 of the all-sp78 session is in the band. -/
theorem cpu_temp_mean_of_accepted_witness :
    read_cpu_temperature smcEnvNone = none ∧ temp_in_band (51 / 2) = true := by
  constructor
  · rw [cpu_temp_mean_of_accepted.1 smcEnvNone]
    simp [accepted_temps, read_smc_key, smcEnvNone]
  · refine cpu_temp_mean_of_accepted.2.1 (smcEnvSp78 25 128) (51 / 2) ?_
    rw [accepted_temps_smcEnvSp78_25_128]
    simp

/-- C2 amended: every cpu_temp value surfaced by collect_stats lies in the
plausible band (the contributing readings each passed the filter and their
mean stays inside the band). -/
theorem surfaced_cpu_temp_in_band (env : SysEnv) (t : ℚ)
    (h : (collect_stats env).cpu_temp = some t) :
    20 ≤ t ∧ t < 110 := by
  have hg : get_cpu_temperature env.smc = some t := h
  unfold get_cpu_temperature at hg
  split at hg
  · split at hg
    · split at hg
      · rw [read_cpu_temperature_eq] at hg
        split at hg
        · exact absurd hg (by simp)
        · rename_i hne
          have hmean := mean_mem_band (accepted_temps env.smc) hne
            (fun x hx => accepted_temps_band env.smc x hx)
          obtain rfl : (accepted_temps env.smc).sum / ((accepted_temps env.smc).length : ℚ) = t := by
            simpa using hg
          exact hmean
      · exact absurd hg (by simp)
    · exact absurd hg (by simp)
  · exact absurd hg (by simp)

/-- A full environment whose SMC session reads 25.5 on every key. -/
def envTempAll : SysEnv :=
  { cpu_usage := 10, total_memory := 8, used_memory := 4
    gpu := gpuEnvNone, smc := smcEnvSp78 25 128 }

/-- Witness for C2: the amended theorem applied at a session surfacing the
temperature 25.5. -/
theorem surfaced_cpu_temp_in_band_witness :
    (collect_stats envTempAll).cpu_temp = some (51 / 2) ∧
    20 ≤ (51 / 2 : ℚ) ∧ (51 / 2 : ℚ) < 110 := by
  have h : (collect_stats envTempAll).cpu_temp = some (51 / 2) := by
    show read_cpu_temperature (smcEnvSp78 25 128) = some (51 / 2)
    rw [read_cpu_temperature_eq, accepted_temps_smcEnvSp78_25_128]
    simp [List.replicate]
    norm_num
  exact ⟨h, surfaced_cpu_temp_in_band envTempAll (51 / 2) h⟩

/-- A full environment with one GPU device reporting the implausible
utilization value 5000 and no SMC sensors. -/
def envGpu5000 : SysEnv :=
  { cpu_usage := 10, total_memory := 8, used_memory := 4
    gpu := gpuEnvDev5000, smc := smcEnvNone }

/-- Counterexample for C2 as stated: a GPU reading of 5000, far outside any
plausible utilization-percentage band such as 0 to 100, is surfaced in the
snapshot unchanged — GPU usage undergoes no plausibility range check. -/
theorem surfaced_gpu_unchecked :
    (collect_stats envGpu5000).gpu_usage = some 5000 ∧ ¬ ((5000 : ℚ) ≤ 100) := by
  constructor
  · show get_gpu_usage gpuEnvDev5000 = some 5000
    simp [get_gpu_usage, gpuEnvDev5000, gpu_fold, get_gpu_entry_usage, probe_keys,
      UTILIZATION_KEYS, decode_cfnum]
  · norm_num

/-- C5: for every enumeration, each device contributes the value of its
first present-and-decodable candidate utilization key (no summing of
several keys of one device), the result is the arithmetic mean over the
devices that yielded a value, and none — not zero — when no device yielded
one. -/
theorem gpu_usage_mean_of_first_key :
    (∀ env : GpuEnv,
      get_gpu_usage env =
        (if env.matching_ok ∧ env.services_ok then
          (if env.entries.filterMap get_gpu_entry_usage = [] then none
           else some ((env.entries.filterMap get_gpu_entry_usage).sum /
             ((env.entries.filterMap get_gpu_entry_usage).length : ℚ)))
         else none)) ∧
    (∀ perf : List (String × CFNum),
      probe_keys perf UTILIZATION_KEYS = first_present_decodable perf) := by
  constructor
  · intro env
    unfold get_gpu_usage
    rw [gpu_fold_eq]
    by_cases hm : env.matching_ok
    · by_cases hs : env.services_ok
      · rw [if_pos hm, if_pos hs,
          if_pos (show env.matching_ok = true ∧ env.services_ok = true from ⟨hm, hs⟩)]
        cases hfe : env.entries.filterMap get_gpu_entry_usage with
        | nil => norm_num
        | cons v vs => simp
      · rw [if_pos hm, if_neg hs,
          if_neg (show ¬(env.matching_ok = true ∧ env.services_ok = true) from
            fun hc => hs hc.2)]
    · rw [if_neg hm,
        if_neg (show ¬(env.matching_ok = true ∧ env.services_ok = true) from
          fun hc => hm hc.1)]
  · intro perf
    rw [probe_keys_eq_first perf UTILIZATION_KEYS]
    rfl

/-- Environment with zero memory counters. -/
def envRam00 : SysEnv :=
  { cpu_usage := 0, total_memory := 0, used_memory := 0
    gpu := gpuEnvNone, smc := smcEnvNone }

/-- Environment with 4 of 8 memory units used. -/
def envRam48 : SysEnv :=
  { cpu_usage := 0, total_memory := 8, used_memory := 4
    gpu := gpuEnvNone, smc := smcEnvNone }

/-- C7: the RAM percentage is used / total * 100 when total memory is
positive and 0 when it is zero, in both the macos and the fallback
collector; concretely 0 of 0 yields 0 and 4 of 8 yields 50. -/
theorem ram_percentage_guarded :
    (∀ env : SysEnv,
      (collect_stats env).ram_usage =
        (if 0 < env.total_memory
         then (env.used_memory : ℚ) / (env.total_memory : ℚ) * 100 else 0) ∧
      (collect_stats_fallback env).ram_usage =
        (if 0 < env.total_memory
         then (env.used_memory : ℚ) / (env.total_memory : ℚ) * 100 else 0)) ∧
    (collect_stats envRam00).ram_usage = 0 ∧
    (collect_stats envRam48).ram_usage = 50 := by
  have hmain : ∀ env : SysEnv,
      (collect_stats env).ram_usage =
        (if 0 < env.total_memory
         then (env.used_memory : ℚ) / (env.total_memory : ℚ) * 100 else 0) := by
    intro env
    show (if (env.total_memory : ℚ) > 0
          then (env.used_memory : ℚ) / (env.total_memory : ℚ) * 100 else 0) = _
    by_cases h : 0 < env.total_memory
    · rw [if_pos (by exact_mod_cast h), if_pos h]
    · rw [if_neg (by exact_mod_cast h), if_neg h]
  have hfall : ∀ env : SysEnv,
      (collect_stats_fallback env).ram_usage =
        (if 0 < env.total_memory
         then (env.used_memory : ℚ) / (env.total_memory : ℚ) * 100 else 0) := by
    intro env
    show (if (env.total_memory : ℚ) > 0
          then (env.used_memory : ℚ) / (env.total_memory : ℚ) * 100 else 0) = _
    by_cases h : 0 < env.total_memory
    · rw [if_pos (by exact_mod_cast h), if_pos h]
    · rw [if_neg (by exact_mod_cast h), if_neg h]
  refine ⟨fun env => ⟨hmain env, hfall env⟩, ?_, ?_⟩
  · rw [hmain envRam00]
    norm_num [envRam00]
  · rw [hmain envRam48]
    norm_num [envRam48]

/-- C8: on a platform without the accelerator or management service API the
GPU and temperature producers are constant none, while the assembled
snapshot still reports the OS CPU and RAM figures; the output type makes
every telemetry failure surface only as an absent optional field. -/
theorem fallback_constant_unavailable :
    get_gpu_usage_fallback = none ∧
    (∀ env : SysEnv,
      (collect_stats_fallback env).gpu_usage = none ∧
      (collect_stats_fallback env).cpu_temp = none ∧
      (collect_stats_fallback env).cpu_usage = env.cpu_usage ∧
      (collect_stats_fallback env).ram_usage =
        (if (env.total_memory : ℚ) > 0
         then (env.used_memory : ℚ) / (env.total_memory : ℚ) * 100 else 0)) := by
  exact ⟨rfl, fun env => ⟨rfl, rfl, rfl, rfl⟩⟩

/-- C6: a refresh requested at most the refresh interval after the last one
leaves the cached telemetry state bit-identical and consults nothing — the
result does not depend on any part of the environment, OS counters
included. -/
theorem refresh_within_interval_keeps_cache (s : AppSysState) (env : AppEnv)
    (h : env.now - s.last_system_refresh ≤ SYSTEM_INFO_REFRESH_MS) :
    refresh_system_info s env = s := by
  unfold refresh_system_info
  rw [if_neg (by omega)]

/-- Witness for C6: a second refresh 500 ms after one at time 1000 returns
the cached state although the environment reports changed OS counters. -/
theorem refresh_within_interval_keeps_cache_witness :
    refresh_system_info
      { cpu_usage := 10, gpu_usage := none, last_system_refresh := 1000 }
      { now := 1500, os_cpu_usage := 99, gpu := gpuEnvDev5000,
        smc := smcEnvSp78 25 128, total_memory := 16, used_memory := 8 }
    = { cpu_usage := 10, gpu_usage := none, last_system_refresh := 1000 } :=
  refresh_within_interval_keeps_cache _ _ (by norm_num [SYSTEM_INFO_REFRESH_MS])

/-- The app state and two environments used to evaluate the C3 failing
input: both are 5000 ms past the last refresh; they agree on the OS CPU
counter and the accelerator state but differ completely in SMC sensors and
memory counters. -/
def appState0 : AppSysState :=
  { cpu_usage := 10, gpu_usage := none, last_system_refresh := 0 }

/-- Environment in which the SMC sensors read 25.5 and memory is half
used. -/
def appEnvSensors : AppEnv :=
  { now := 5000, os_cpu_usage := 42, gpu := gpuEnvNone,
    smc := smcEnvSp78 25 128, total_memory := 8, used_memory := 4 }

/-- Environment with no SMC sensors and zero memory counters. -/
def appEnvNoSensors : AppEnv :=
  { now := 5000, os_cpu_usage := 42, gpu := gpuEnvNone,
    smc := smcEnvNone, total_memory := 0, used_memory := 0 }

/-- The same machine state as appEnvSensors given to collect_stats. -/
def sysEnvC3 : SysEnv :=
  { cpu_usage := 42, total_memory := 8, used_memory := 4
    gpu := gpuEnvNone, smc := smcEnvSp78 25 128 }

/-- C3, evaluated at the failing input: an elapsed refresh fires (the
timestamp and the cpu and gpu fields are updated) yet produces an identical
result under two environments that differ in every temperature sensor and
memory counter — the refresh reads neither RAM nor temperature and
assembles no four-metric snapshot, while collect_stats (which nothing
calls with this state) would have surfaced RAM 50 and temperature 25.5. -/
theorem refresh_elapsed_ignores_ram_and_temp :
    refresh_system_info appState0 appEnvSensors =
      refresh_system_info appState0 appEnvNoSensors ∧
    refresh_system_info appState0 appEnvSensors =
      { cpu_usage := 42, gpu_usage := none, last_system_refresh := 5000 } ∧
    (collect_stats sysEnvC3).ram_usage = 50 ∧
    (collect_stats sysEnvC3).cpu_temp = some (51 / 2) := by
  have h1 : refresh_system_info appState0 appEnvSensors =
      { cpu_usage := 42, gpu_usage := none, last_system_refresh := 5000 } := by
    unfold refresh_system_info
    rw [if_pos (by norm_num [appState0, appEnvSensors, SYSTEM_INFO_REFRESH_MS])]
    simp [appEnvSensors, get_gpu_usage, gpuEnvNone]
  have h2 : refresh_system_info appState0 appEnvNoSensors =
      { cpu_usage := 42, gpu_usage := none, last_system_refresh := 5000 } := by
    unfold refresh_system_info
    rw [if_pos (by norm_num [appState0, appEnvNoSensors, SYSTEM_INFO_REFRESH_MS])]
    simp [appEnvNoSensors, get_gpu_usage, gpuEnvNone]
  refine ⟨h1.trans h2.symm, h1, ?_, ?_⟩
  · show (if ((8 : Nat) : ℚ) > 0 then ((4 : Nat) : ℚ) / ((8 : Nat) : ℚ) * 100 else 0) = 50
    norm_num
  · show read_cpu_temperature (smcEnvSp78 25 128) = some (51 / 2)
    rw [read_cpu_temperature_eq, accepted_temps_smcEnvSp78_25_128]
    simp [List.replicate]
    norm_num
